import Mathlib

set_option maxRecDepth 100000

/-
Verification of the sqlstore layer of shiestapoi/whatsmeow (package sqlstore).

The development shallowly embeds the per-account SQL store: each table is a
total function from its composite key to an optional row, and each store
operation is the state transformer denoted by the SQL statement the Go code
executes on the active dialect.  Byte blobs ([]byte / [N]byte) are lists of
naturals; dialect tags are the strings the Go code compares against
("postgres", "sqlite3", "mysql").
-/

namespace Sqlstore

/-- Byte blobs ([]byte in Go) are modelled as lists of naturals. -/
abbrev Blob := List Nat

/-- Errors the store surfaces.  `invalidLength` models ErrInvalidLength
("database returned byte array with illegal length"); `backend` wraps any
other database error message. -/
inductive StoreErr where
  | invalidLength : StoreErr
  | backend (msg : String) : StoreErr
deriving DecidableEq, Repr

/-! ## Identity keys (whatsmeow_identity_keys)

The table is keyed by their_id (the per-account our_jid prefix is implicit:
every model state is the slice of the table belonging to one account). -/

/-- PutIdentity: `INSERT ... ON CONFLICT (our_jid, their_id) DO UPDATE SET
identity=excluded.identity` (identical upsert-overwrite on all three
dialects). -/
def putIdentity (table : String → Option Blob) (address : String) (key : Blob) :
    String → Option Blob :=
  fun x => if x = address then some key else table x

/-- IsTrustedIdentity: scan of getIdentityQuery.  No row ⇒ trusted (nil error);
a stored blob whose length is not 32 ⇒ ErrInvalidLength; otherwise the result
is byte-exact equality `*(*[32]byte)(existingIdentity) == key`. -/
def isTrustedIdentity (table : String → Option Blob) (address : String) (key : Blob) :
    Except StoreErr Bool :=
  match table address with
  | none => .ok true
  | some existingIdentity =>
      if existingIdentity.length ≠ 32 then .error .invalidLength
      else .ok (existingIdentity == key)

/-! ## App state versions (whatsmeow_app_state_version) -/

/-- Row of whatsmeow_app_state_version: version BIGINT, hash bytea
CHECK (length(hash) = 128). -/
structure AppStateVersionRow where
  version : Nat
  hash : Blob
deriving DecidableEq, Repr

/-- GetAppStateVersion: on sql.ErrNoRows the named returns keep their zero
values (version 0, all-zero [128]byte hash) and the error is cleared; a hash
whose length is not 128 is ErrInvalidLength; otherwise the stored row is
returned. -/
def getAppStateVersion (table : String → Option AppStateVersionRow) (name : String) :
    Except StoreErr (Nat × Blob) :=
  match table name with
  | none => .ok (0, List.replicate 128 0)
  | some row =>
      if row.hash.length ≠ 128 then .error .invalidLength
      else .ok (row.version, row.hash)

/-! ## App state sync keys (whatsmeow_app_state_sync_keys) -/

/-- store.AppStateSyncKey: Data []byte, Timestamp int64, Fingerprint []byte. -/
structure AppStateSyncKey where
  data : Blob
  timestamp : Int
  fingerprint : Blob
deriving DecidableEq, Repr

/-- PutAppStateSyncKey.  On dialect "mysql" the Go code executes an
unconditional `ON DUPLICATE KEY UPDATE key_data=VALUES(key_data),
timestamp=VALUES(timestamp), fingerprint=VALUES(fingerprint)` inside a
transaction: insert or overwrite, with no timestamp comparison.  On every
other dialect it executes putAppStateSyncKeyQuery, whose upsert is guarded by
`WHERE excluded.timestamp > whatsmeow_app_state_sync_keys.timestamp`: the
existing row is replaced only when the incoming timestamp is strictly
greater. -/
def putAppStateSyncKey (dialect : String) (table : Blob → Option AppStateSyncKey)
    (id : Blob) (key : AppStateSyncKey) : Blob → Option AppStateSyncKey :=
  if dialect = "mysql" then
    fun x => if x = id then some key else table x
  else
    fun x =>
      if x = id then
        match table id with
        | none => some key
        | some old => if key.timestamp > old.timestamp then some key else some old
      else table x

/-- GetAppStateSyncKey on the standard path: the stored row, or none on
sql.ErrNoRows. -/
def getAppStateSyncKey (table : Blob → Option AppStateSyncKey) (id : Blob) :
    Option AppStateSyncKey :=
  table id

/-! ## Message secrets (whatsmeow_message_secrets)

Keys are (chat_jid, sender_jid, message_id); the store applies
JID.ToNonAD() to chat and sender before both writes and reads, which we keep
as an abstract normalization function. -/

/-- Per-row semantics of putMsgSecret.  Both dialect variants are
insert-if-absent: `ON CONFLICT (our_jid, chat_jid, sender_jid, message_id)
DO NOTHING` (postgres/sqlite) and `ON DUPLICATE KEY UPDATE our_jid=our_jid`
(mysql, a self-assignment that changes nothing). -/
def putMessageSecret (toNonAD : String → String)
    (table : String × String × String → Option Blob)
    (chat sender id : String) (secret : Blob) :
    String × String × String → Option Blob :=
  let k := (toNonAD chat, toNonAD sender, id)
  fun x =>
    if x = k then
      match table k with
      | none => some secret
      | some old => some old
    else table x

/-- GetMessageSecret: `SELECT key FROM whatsmeow_message_secrets WHERE
our_jid=$1 AND chat_jid=$2 AND sender_jid=$3 AND message_id=$4`, with
sql.ErrNoRows absorbed (nil secret, nil error). -/
def getMessageSecret (toNonAD : String → String)
    (table : String × String × String → Option Blob)
    (chat sender id : String) : Option Blob :=
  table (toNonAD chat, toNonAD sender, id)

/-! ## String helpers

The Go code uses strings.Contains and strings.ReplaceAll; we embed both as
structurally recursive functions on character lists so that the kernel can
evaluate them. -/

/-- Does `pat` occur at the front of `s`? -/
def matchFront : List Char → List Char → Bool
  | [], _ => true
  | _ :: _, [] => false
  | a :: as, b :: bs => (a == b) && matchFront as bs

/-- Does `pat` occur anywhere in `s` (strings.Contains)? -/
def containsSub (pat : List Char) : List Char → Bool
  | [] => matchFront pat []
  | c :: rest => matchFront pat (c :: rest) || containsSub pat rest

/-- strings.Contains(s, pat). -/
def strContains (s pat : String) : Bool :=
  containsSub pat.data s.data

/-- Replace every non-overlapping occurrence of `pat` (nonempty) in the
string, scanning left to right; `fuel` bounds the recursion and is always
supplied as the length of the scanned list. -/
def replaceAllFuel (pat rep : List Char) : Nat → List Char → List Char
  | 0, s => s
  | _ + 1, [] => []
  | f + 1, c :: rest =>
      if matchFront pat (c :: rest) then
        rep ++ replaceAllFuel pat rep f ((c :: rest).drop pat.length)
      else
        c :: replaceAllFuel pat rep f rest

/-- strings.ReplaceAll(s, pat, rep) for a nonempty pattern (every pattern the
source passes is nonempty; an empty pattern is returned unchanged). -/
def replaceAll (s pat rep : String) : String :=
  if pat.data = [] then s
  else ⟨replaceAllFuel pat.data rep.data s.data.length s.data⟩

/-! ## Retry envelope for message-secret chunks (putMessageSecretsWithRetry)

A backend run is abstracted as `res : Nat → Option String`, the outcome of
putMessageSecretsInternal on each 0-based attempt (`none` = success, `some e`
= the error string).  The model returns the final error (if any) together
with the list of sleep durations (milliseconds, `100 * (attempt+1)` before
each retry), mirroring the Go loop exactly. -/

/-- The substring putMessageSecretsWithRetry tests with strings.Contains. -/
def lockTimeoutNeedle : String := "Lock wait timeout exceeded"

/-- One step per remaining unit of fuel; fuel starts at maxRetries = 3.  The
loop body: run the attempt; return immediately when it succeeded or when the
dialect is mysql and the error does not contain the lock-wait-timeout text;
otherwise sleep 100*(attempt+1) ms and continue.  When the fuel is exhausted
the Go code returns fmt.Errorf("failed to store message secrets after %d
retry attempts", maxRetries). -/
def retryAux (dialect : String) (res : Nat → Option String) :
    Nat → Nat → Option String × List Nat
  | _, 0 => (some "failed to store message secrets after 3 retry attempts", [])
  | attempt, fuel + 1 =>
      match res attempt with
      | none => (none, [])
      | some e =>
          if dialect = "mysql" && !(strContains e lockTimeoutNeedle) then
            (some e, [])
          else
            let r := retryAux dialect res (attempt + 1) fuel
            (r.1, 100 * (attempt + 1) :: r.2)

/-- putMessageSecretsWithRetry: maxRetries = 3 starting at attempt 0. -/
def putMessageSecretsWithRetry (dialect : String) (res : Nat → Option String) :
    Option String × List Nat :=
  retryAux dialect res 0 3

/-! ## Chunked batch writes

`chunksOf n l` is the sequence of slices the Go loops
`for i := 0; i < len(l); i += n { l[i : min(i+n, len(l))] }` iterate over. -/

/-- Fueled splitter; the fuel is always the length of the list. -/
def chunksOfFuel (n : Nat) : Nat → List α → List (List α)
  | 0, _ => []
  | _, [] => []
  | fuel + 1, x :: xs => (x :: xs).take n :: chunksOfFuel n fuel ((x :: xs).drop n)

/-- Consecutive chunks of at most `n` elements covering `l` in order. -/
def chunksOf (n : Nat) (l : List α) : List (List α) :=
  chunksOfFuel n l.length l

/-- Chunk writes sharing ONE transaction (PutAppStateMutationMACs and
PutAllContactNames): each successful chunk appends its rows to the
transaction state; the first failing chunk (per the abstract failure oracle
`fail`, indexed by chunk number) aborts with `none`, modelling tx.Rollback().
`i` is the index of the chunk at the head of the remaining list. -/
def runChunksOneTx (fail : Nat → Bool) : Nat → List (List α) → List α → Option (List α)
  | _, [], acc => some acc
  | i, c :: cs, acc =>
      if fail i then none else runChunksOneTx fail (i + 1) cs (acc ++ c)

/-- Chunk writes where EACH chunk commits its own transaction
(PutMessageSecrets: every chunk goes through putMessageSecretsWithRetry,
whose putMessageSecretsInternal opens and commits a fresh transaction).  A
failing chunk returns its index; the rows of the chunks already committed
stay in the database. -/
def runChunksPerTx (fail : Nat → Bool) : Nat → List (List α) → List α → List α × Option Nat
  | _, [], db => (db, none)
  | i, c :: cs, db =>
      if fail i then (db, some i) else runChunksPerTx fail (i + 1) cs (db ++ c)

/-- PutAppStateMutationMACs on a batch larger than mutationBatchSize = 400:
one transaction around all the chunks; on a chunk error the transaction is
rolled back and the error returned (flag `true`), leaving the database at its
pre-call contents. -/
def putAppStateMutationMACsBig (fail : Nat → Bool) (mutations db : List α) :
    List α × Bool :=
  match runChunksOneTx fail 0 (chunksOf 400 mutations) db with
  | some newDb => (newDb, false)
  | none => (db, true)

/-- PutAllContactNames on a batch larger than contactBatchSize = 300: same
single-transaction shape with chunks of 300. -/
def putAllContactNamesBig (fail : Nat → Bool) (contacts db : List α) :
    List α × Bool :=
  match runChunksOneTx fail 0 (chunksOf 300 contacts) db with
  | some newDb => (newDb, false)
  | none => (db, true)

/-- PutMessageSecrets: chunks of msgSecretBatchSize = 50, each written (and
committed) by its own putMessageSecretsWithRetry call; the loop stops at the
first failing chunk and returns its error, with the earlier chunks already
committed. -/
def putMessageSecretsChunked (fail : Nat → Bool) (inserts db : List α) :
    List α × Option Nat :=
  runChunksPerTx fail 0 (chunksOf 50 inserts) db

/-! ## SQL LIKE matching (identity deletes)

deleteAllIdentitiesQuery is `DELETE FROM whatsmeow_identity_keys WHERE
our_jid=$1 AND their_id LIKE $2`; SQL LIKE treats percent as any sequence of
characters and underscore as any single character. -/

/-- Fueled LIKE matcher over character lists. -/
def likeMatchFuel : Nat → List Char → List Char → Bool
  | 0, _, _ => false
  | _ + 1, [], [] => true
  | _ + 1, [], _ :: _ => false
  | f + 1, '%' :: ps, s =>
      likeMatchFuel f ps s ||
        (match s with
         | [] => false
         | _ :: t => likeMatchFuel f ('%' :: ps) t)
  | f + 1, '_' :: ps, s =>
      (match s with
       | [] => false
       | _ :: t => likeMatchFuel f ps t)
  | f + 1, p :: ps, s =>
      (match s with
       | [] => false
       | c :: t => (p == c) && likeMatchFuel f ps t)

/-- Does `s` match the LIKE pattern `pat`?  The fuel `pat.length + s.length +
1` strictly dominates the recursion depth, so the cutoff is never hit. -/
def likeMatch (pat s : String) : Bool :=
  likeMatchFuel (pat.length + s.length + 1) pat.data s.data

/-- DeleteAllIdentities(phone): runs deleteAllIdentitiesQuery with the
pattern `phone + ":%"`. -/
def deleteAllIdentities (table : String → Option Blob) (phone : String) :
    String → Option Blob :=
  fun peer => if likeMatch (phone ++ ":%") peer then none else table peer

/-- DeleteIdentity(address): the source passes the raw address to the SAME
LIKE-based deleteAllIdentitiesQuery, so wildcard characters in the address
are interpreted. -/
def deleteIdentity (table : String → Option Blob) (address : String) :
    String → Option Blob :=
  fun peer => if likeMatch address peer then none else table peer

/-- Exact-match delete, following the words of the spec (and the unused
source constant deleteIdentityQuery, `DELETE FROM whatsmeow_identity_keys
WHERE our_jid=$1 AND their_id=$2`): only the row whose peer id equals the
address is removed. -/
def deleteIdentityExact (table : String → Option Blob) (address : String) :
    String → Option Blob :=
  fun peer => if peer = address then none else table peer

/-! ## The dialect layer (SQLStore.dialectQuery) -/

/-- The markers the Go loop `for i := 1; i <= 20; i++` substitutes, in the
order it substitutes them (fmt.Sprintf of the dollar sign and i). -/
def markerList : List String :=
  ["$1", "$2", "$3", "$4", "$5", "$6", "$7", "$8", "$9", "$10",
   "$11", "$12", "$13", "$14", "$15", "$16", "$17", "$18", "$19", "$20"]

/-- Replace each positional marker with a question mark, in increasing order
of N (so the source also rewrites the dollar-one portion of two-digit markers
first, exactly as strings.ReplaceAll does in the Go loop). -/
def replaceMarkers (query : String) : String :=
  markerList.foldl (fun r m => replaceAll r m "?") query

/-- The mysql-only substitutions of dialectQuery, applied in source order:
backtick-quoting of the reserved column `key`, stripping of a stray
moved-WHERE clause, and the translation of each recognized ON CONFLICT
clause into ON DUPLICATE KEY UPDATE form. -/
def mysqlFixes (q0 : String) : String :=
  let q1 := replaceAll q0 "key FROM" "`key` FROM"
  let q2 := replaceAll q1 "key_id, key FROM" "key_id, `key` FROM"
  let q3 := replaceAll q2 "(jid, key_id, key, uploaded)" "(jid, key_id, `key`, uploaded)"
  let q4 := replaceAll q3 "message_id, key)" "message_id, `key`)"
  let q5 := replaceAll q4
    "WHERE VALUES(timestamp) > whatsmeow_app_state_sync_keys.timestamp" ""
  let q6 := replaceAll q5
    "ON CONFLICT (our_jid, their_id) DO UPDATE SET identity=excluded.identity"
    "ON DUPLICATE KEY UPDATE identity=VALUES(identity)"
  let q7 := replaceAll q6
    "ON CONFLICT (our_jid, their_id) DO UPDATE SET session=excluded.session"
    "ON DUPLICATE KEY UPDATE session=VALUES(session)"
  let q8 := replaceAll q7
    "ON CONFLICT (our_jid, chat_jid) DO UPDATE SET"
    "ON DUPLICATE KEY UPDATE"
  let q9 := replaceAll q8
    "ON CONFLICT (our_jid, chat_id, sender_id) DO UPDATE SET sender_key=excluded.sender_key"
    "ON DUPLICATE KEY UPDATE sender_key=VALUES(sender_key)"
  let q10 := replaceAll q9
    "ON CONFLICT (jid, key_id) DO UPDATE"
    "ON DUPLICATE KEY UPDATE"
  let q11 := replaceAll q10
    "ON CONFLICT (jid, name) DO UPDATE SET version=excluded.version, hash=excluded.hash"
    "ON DUPLICATE KEY UPDATE version=VALUES(version), hash=VALUES(hash)"
  let q12 := replaceAll q11
    "ON CONFLICT (our_jid, their_jid) DO UPDATE SET first_name=excluded.first_name, full_name=excluded.full_name"
    "ON DUPLICATE KEY UPDATE first_name=VALUES(first_name), full_name=VALUES(full_name)"
  let q13 := replaceAll q12
    "ON CONFLICT (our_jid, their_jid) DO UPDATE SET push_name=excluded.push_name"
    "ON DUPLICATE KEY UPDATE push_name=VALUES(push_name)"
  let q14 := replaceAll q13
    "ON CONFLICT (our_jid, their_jid) DO UPDATE SET business_name=excluded.business_name"
    "ON DUPLICATE KEY UPDATE business_name=VALUES(business_name)"
  let q15 := replaceAll q14
    "ON CONFLICT (our_jid, chat_jid, sender_jid, message_id) DO NOTHING"
    "ON DUPLICATE KEY UPDATE our_jid=our_jid"
  replaceAll q15
    "ON CONFLICT (jid, key_id) DO UPDATE SET key_data=excluded.key_data, timestamp=excluded.timestamp, fingerprint=excluded.fingerprint WHERE excluded.timestamp > whatsmeow_app_state_sync_keys.timestamp"
    "ON DUPLICATE KEY UPDATE key_data=VALUES(key_data), timestamp=VALUES(timestamp), fingerprint=VALUES(fingerprint) WHERE VALUES(timestamp) > whatsmeow_app_state_sync_keys.timestamp"

/-- SQLStore.dialectQuery: for the dialect tags "mysql" and "sqlite3" the
positional markers become question marks; for "mysql" the ON CONFLICT and
reserved-identifier substitutions run afterwards; every other tag gets the
template back unchanged. -/
def dialectQuery (dialect : String) (query : String) : String :=
  if dialect = "mysql" ∨ dialect = "sqlite3" then
    let result := replaceMarkers query
    if dialect = "mysql" then mysqlFixes result else result
  else query

/-- Source constant getIdentityQuery. -/
def getIdentityQuery : String :=
  "SELECT identity FROM whatsmeow_identity_keys WHERE our_jid=$1 AND their_id=$2"

/-- Source constant deleteAllIdentitiesQuery. -/
def deleteAllIdentitiesQuery : String :=
  "DELETE FROM whatsmeow_identity_keys WHERE our_jid=$1 AND their_id LIKE $2"

/-- Source constant getSessionQuery. -/
def getSessionQuery : String :=
  "SELECT session FROM whatsmeow_sessions WHERE our_jid=$1 AND their_id=$2"

/-! ## Pre-keys (whatsmeow_pre_keys) -/

/-- Row of whatsmeow_pre_keys for one account: key_id and the uploaded flag
(the 32-byte key material plays no role in the id-allocation claims). -/
structure PreKeyRow where
  keyId : Nat
  uploaded : Bool
deriving DecidableEq, Repr

/-- The scalar `SELECT MAX(key_id) FROM whatsmeow_pre_keys WHERE jid=$1`,
scanned into sql.NullInt32: on an empty table MAX is NULL and the NullInt32
zero value makes it 0. -/
def maxKeyId (rows : List PreKeyRow) : Nat :=
  rows.foldr (fun r m => max r.keyId m) 0

/-- getNextPreKeyID: `uint32(lastKeyID.Int32) + 1`. -/
def getNextPreKeyID (rows : List PreKeyRow) : Nat :=
  maxKeyId rows + 1

/-- genOnePreKey(id, markUploaded): `INSERT INTO whatsmeow_pre_keys (jid,
key_id, key, uploaded) VALUES ($1, $2, $3, $4)`. -/
def genOnePreKeyIns (rows : List PreKeyRow) (id : Nat) (markUploaded : Bool) :
    List PreKeyRow :=
  rows ++ [⟨id, markUploaded⟩]

/-- GenOnePreKey: under the pre-key mutex, read getNextPreKeyID and insert
the fresh key with uploaded = true; returns the allocated id and the new
table state. -/
def genOnePreKey (rows : List PreKeyRow) : Nat × List PreKeyRow :=
  (getNextPreKeyID rows, genOnePreKeyIns rows (getNextPreKeyID rows) true)

/-- UploadedPreKeyCount: `SELECT COUNT(*) FROM whatsmeow_pre_keys WHERE
jid=$1 AND uploaded=true`. -/
def uploadedPreKeyCount (rows : List PreKeyRow) : Nat :=
  (rows.filter (fun r => r.uploaded)).length

/-! ## Chat settings (whatsmeow_chat_settings) -/

/-- Row of whatsmeow_chat_settings. -/
structure ChatSettingsRow where
  mutedUntil : Int
  pinned : Bool
  archived : Bool
deriving DecidableEq, Repr

/-- Schema defaults: muted_until BIGINT NOT NULL DEFAULT 0, pinned BOOLEAN
NOT NULL DEFAULT false, archived BOOLEAN NOT NULL DEFAULT false (TINYINT(1)
DEFAULT 0 on mysql). -/
def chatSettingsDefaults : ChatSettingsRow :=
  ⟨0, false, false⟩

/-- PutMutedUntil: `INSERT INTO whatsmeow_chat_settings (our_jid, chat_jid,
muted_until) VALUES (...) ON CONFLICT (our_jid, chat_jid) DO UPDATE SET
muted_until=excluded.muted_until` (the same single-column upsert on each
dialect via putChatSettingQueryPostgres / MySQL / SQLite with %[1]s =
muted_until); `val` is the epoch-second int64 the Go code derives before the
write. -/
def putMutedUntil (table : String → Option ChatSettingsRow) (chat : String) (val : Int) :
    String → Option ChatSettingsRow :=
  fun x =>
    if x = chat then
      match table chat with
      | none => some { chatSettingsDefaults with mutedUntil := val }
      | some old => some { old with mutedUntil := val }
    else table x

/-- PutPinned: the same upsert with %[1]s = pinned. -/
def putPinned (table : String → Option ChatSettingsRow) (chat : String) (pinned : Bool) :
    String → Option ChatSettingsRow :=
  fun x =>
    if x = chat then
      match table chat with
      | none => some { chatSettingsDefaults with pinned := pinned }
      | some old => some { old with pinned := pinned }
    else table x

/-- PutArchived: the same upsert with %[1]s = archived. -/
def putArchived (table : String → Option ChatSettingsRow) (chat : String) (archived : Bool) :
    String → Option ChatSettingsRow :=
  fun x =>
    if x = chat then
      match table chat with
      | none => some { chatSettingsDefaults with archived := archived }
      | some old => some { old with archived := archived }
    else table x

/-! ## Helper lemmas -/

theorem maxKeyId_append (l : List PreKeyRow) (r : PreKeyRow) :
    maxKeyId (l ++ [r]) = max (maxKeyId l) r.keyId := by
  induction l with
  | nil => simp [maxKeyId]
  | cons x xs ih =>
      show max x.keyId (maxKeyId (xs ++ [r])) = max (max x.keyId (maxKeyId xs)) r.keyId
      rw [ih, Nat.max_assoc]

theorem chunksOfFuel_join (n : Nat) (hn : 1 ≤ n) :
    ∀ (fuel : Nat) (l : List Nat), l.length ≤ fuel →
      (chunksOfFuel n fuel l).flatten = l := by
  intro fuel
  induction fuel with
  | zero =>
      intro l hl
      cases l with
      | nil => rfl
      | cons x xs => simp at hl
  | succ f ih =>
      intro l hl
      cases l with
      | nil => rfl
      | cons x xs =>
          show ((x :: xs).take n :: chunksOfFuel n f ((x :: xs).drop n)).flatten = x :: xs
          rw [List.flatten_cons]
          rw [ih ((x :: xs).drop n)
            (by simp only [List.length_drop, List.length_cons] at hl ⊢; omega)]
          exact List.take_append_drop n (x :: xs)

theorem chunksOf_join (n : Nat) (hn : 1 ≤ n) (l : List Nat) :
    (chunksOf n l).flatten = l :=
  chunksOfFuel_join n hn l.length l (le_refl _)

theorem chunksOfFuel_length_le (n : Nat) :
    ∀ (fuel : Nat) (l : List Nat) (c : List Nat),
      c ∈ chunksOfFuel n fuel l → c.length ≤ n := by
  intro fuel
  induction fuel with
  | zero => intro l c hc; simp [chunksOfFuel] at hc
  | succ f ih =>
      intro l c hc
      cases l with
      | nil => simp [chunksOfFuel] at hc
      | cons x xs =>
          simp only [chunksOfFuel, List.mem_cons] at hc
          rcases hc with h | h
          · subst h
            simp only [List.length_take]
            omega
          · exact ih _ _ h

theorem chunksOf_length_le (n : Nat) (l : List Nat) (c : List Nat)
    (hc : c ∈ chunksOf n l) : c.length ≤ n :=
  chunksOfFuel_length_le n l.length l c hc

theorem runChunksOneTx_some (fail : Nat → Bool) :
    ∀ (cs : List (List Nat)) (i : Nat) (acc out : List Nat),
      runChunksOneTx fail i cs acc = some out → out = acc ++ cs.flatten := by
  intro cs
  induction cs with
  | nil =>
      intro i acc out h
      simp only [runChunksOneTx, Option.some.injEq] at h
      simp [← h]
  | cons c cs ih =>
      intro i acc out h
      by_cases hf : fail i = true
      · rw [runChunksOneTx, if_pos hf] at h
        exact absurd h (by simp)
      · rw [runChunksOneTx, if_neg hf] at h
        have := ih (i + 1) (acc ++ c) out h
        simp [this, List.flatten_cons, List.append_assoc]

theorem runChunksPerTx_fail (fail : Nat → Bool) :
    ∀ (cs : List (List Nat)) (j : Nat) (db : List Nat) (i : Nat),
      (runChunksPerTx fail j cs db).2 = some i →
      j ≤ i ∧ (runChunksPerTx fail j cs db).1 = db ++ ((cs.take (i - j)).flatten) := by
  intro cs
  induction cs with
  | nil => intro j db i h; simp [runChunksPerTx] at h
  | cons c cs ih =>
      intro j db i h
      by_cases hf : fail j = true
      · rw [runChunksPerTx, if_pos hf] at h ⊢
        simp only [Option.some.injEq] at h
        subst h
        exact ⟨le_refl _, by simp⟩
      · rw [runChunksPerTx, if_neg hf] at h ⊢
        obtain ⟨hji, heq⟩ := ih (j + 1) (db ++ c) i h
        refine ⟨by omega, ?_⟩
        rw [heq]
        have hij : i - j = (i - (j + 1)) + 1 := by omega
        rw [hij, List.take_succ_cons]
        simp [List.flatten_cons, List.append_assoc]

theorem runChunksPerTx_none (fail : Nat → Bool) :
    ∀ (cs : List (List Nat)) (j : Nat) (db : List Nat),
      (runChunksPerTx fail j cs db).2 = none →
      (runChunksPerTx fail j cs db).1 = db ++ cs.flatten := by
  intro cs
  induction cs with
  | nil => intro j db _; simp [runChunksPerTx]
  | cons c cs ih =>
      intro j db h
      by_cases hf : fail j = true
      · rw [runChunksPerTx, if_pos hf] at h
        simp at h
      · rw [runChunksPerTx, if_neg hf] at h ⊢
        rw [ih (j + 1) (db ++ c) h]
        simp [List.flatten_cons, List.append_assoc]

/-! ## Claim theorems -/

/-- C1 (counterexample): on the mysql dialect, PutAppStateSyncKey twice on the
same key id stores the SECOND value even though its timestamp 50 is not
greater than the stored timestamp 100 — refuting the claim that on every
recognized dialect the row is overwritten iff the incoming timestamp is
strictly greater. -/
theorem C1_counterexample :
    getAppStateSyncKey
      (putAppStateSyncKey "mysql"
        (putAppStateSyncKey "mysql" (fun _ => none) [171] ⟨[1], 100, [9]⟩)
        [171] ⟨[2], 50, [9]⟩) [171]
      = some ⟨[2], 50, [9]⟩
    ∧ ¬ ((50 : Int) > 100) := by
  constructor
  · decide
  · decide

/-- C1 (amended): for a fresh key id, on any dialect other than mysql
(postgres and sqlite3) the row after two PutAppStateSyncKey calls holds the
second value iff its timestamp is strictly greater than the first, retaining
the first value otherwise; on mysql the second value is stored
unconditionally. -/
theorem C1_sync_key_monotonic (dialect : String)
    (table : Blob → Option AppStateSyncKey) (id : Blob)
    (k1 k2 : AppStateSyncKey) (hfresh : table id = none) :
    (dialect ≠ "mysql" →
      getAppStateSyncKey
        (putAppStateSyncKey dialect (putAppStateSyncKey dialect table id k1) id k2) id
      = some (if k2.timestamp > k1.timestamp then k2 else k1))
    ∧ getAppStateSyncKey
        (putAppStateSyncKey "mysql" (putAppStateSyncKey "mysql" table id k1) id k2) id
      = some k2 := by
  constructor
  · intro hd
    simp only [putAppStateSyncKey, getAppStateSyncKey, if_neg hd, if_pos rfl, hfresh]
    by_cases hts : k2.timestamp > k1.timestamp
    · simp [hts]
    · simp [hts]
  · simp [putAppStateSyncKey, getAppStateSyncKey]

/-- C1 (witness): the amended theorem applied on postgres with a fresh key
and timestamps 100 then 50: the first value is retained. -/
theorem C1_sync_key_monotonic_witness :
    ((fun (_ : Blob) => (none : Option AppStateSyncKey)) [0] = none)
    ∧ getAppStateSyncKey
        (putAppStateSyncKey "postgres"
          (putAppStateSyncKey "postgres" (fun _ => none) [0] ⟨[1], 100, [2]⟩)
          [0] ⟨[3], 50, [4]⟩) [0]
      = some (if (50 : Int) > 100 then (⟨[3], 50, [4]⟩ : AppStateSyncKey)
              else ⟨[1], 100, [2]⟩) :=
  ⟨rfl,
    (C1_sync_key_monotonic "postgres" (fun _ => none) [0] ⟨[1], 100, [2]⟩
      ⟨[3], 50, [4]⟩ rfl).1 (by decide)⟩

/-- C2: message secrets are insert-if-absent on every dialect; for a fresh
composite key, after PutMessageSecret with k1 and then k2,
GetMessageSecret returns k1, and in general the second put leaves the table
completely unchanged. -/
theorem C2_message_secret_first_write_wins (toNonAD : String → String)
    (table : String × String × String → Option Blob)
    (chat sender id : String) (k1 k2 : Blob)
    (hfresh : table (toNonAD chat, toNonAD sender, id) = none) :
    getMessageSecret toNonAD
      (putMessageSecret toNonAD
        (putMessageSecret toNonAD table chat sender id k1)
        chat sender id k2) chat sender id = some k1
    ∧ putMessageSecret toNonAD
        (putMessageSecret toNonAD table chat sender id k1) chat sender id k2
      = putMessageSecret toNonAD table chat sender id k1 := by
  constructor
  · simp [putMessageSecret, getMessageSecret, hfresh]
  · funext x
    simp only [putMessageSecret]
    by_cases hx : x = (toNonAD chat, toNonAD sender, id)
    · simp [hx, hfresh]
    · simp [hx]

/-- C2 (witness): the theorem applied at concrete strings with the identity
JID normalization and an initially empty table. -/
theorem C2_message_secret_first_write_wins_witness :
    ((fun (_ : String × String × String) => (none : Option Blob))
        ((fun s => s) "chat", (fun s => s) "sender", "mid") = none)
    ∧ (getMessageSecret (fun s => s)
        (putMessageSecret (fun s => s)
          (putMessageSecret (fun s => s) (fun _ => none) "chat" "sender" "mid" [1, 2])
          "chat" "sender" "mid" [3, 4]) "chat" "sender" "mid" = some [1, 2]
      ∧ putMessageSecret (fun s => s)
          (putMessageSecret (fun s => s) (fun _ => none) "chat" "sender" "mid" [1, 2])
          "chat" "sender" "mid" [3, 4]
        = putMessageSecret (fun s => s) (fun _ => none) "chat" "sender" "mid" [1, 2]) :=
  ⟨rfl, C2_message_secret_first_write_wins (fun s => s) (fun _ => none)
    "chat" "sender" "mid" [1, 2] [3, 4] rfl⟩

/-- C3 (counterexample): on the postgres dialect, an error that is NOT a
lock-wait timeout ("syntax error at or near SELECT") is nevertheless retried
three times (with sleeps of 100, 200 and 300 ms) and surfaces as the
retry-exhausted error — refuting the claim that on every dialect any error
other than a lock-wait timeout is returned immediately without retry. -/
theorem C3_counterexample :
    putMessageSecretsWithRetry "postgres" (fun _ => some "syntax error at or near SELECT")
      = (some "failed to store message secrets after 3 retry attempts", [100, 200, 300]) := by
  decide

/-- C3 (amended): only on the mysql dialect is a non-lock-wait-timeout error
returned immediately with no sleeps; a first-attempt success returns at once;
and whenever every attempt fails with an error that is retryable under the
source predicate (always, on non-mysql dialects; only lock-wait timeouts on
mysql), the loop makes exactly 3 attempts, sleeping 100 * attempt
milliseconds after the 1st, 2nd and 3rd failed attempt, and returns the
retry-exhausted error carrying the attempt count 3. -/
theorem C3_retry_envelope (dialect : String) (res : Nat → Option String) :
    (∀ e, res 0 = some e → dialect = "mysql" →
        strContains e lockTimeoutNeedle = false →
        putMessageSecretsWithRetry dialect res = (some e, []))
    ∧ (res 0 = none → putMessageSecretsWithRetry dialect res = (none, []))
    ∧ ((∀ i, i < 3 → ∃ e, res i = some e ∧
          (dialect = "mysql" → strContains e lockTimeoutNeedle = true)) →
        putMessageSecretsWithRetry dialect res
          = (some "failed to store message secrets after 3 retry attempts",
             [100, 200, 300])) := by
  have cond : ∀ e, (dialect = "mysql" → strContains e lockTimeoutNeedle = true) →
      (decide (dialect = "mysql") && !(strContains e lockTimeoutNeedle)) = false := by
    intro e he
    by_cases hd : dialect = "mysql"
    · simp [hd, he hd]
    · simp [hd]
  refine ⟨?_, ?_, ?_⟩
  · intro e h0 hd hc
    simp [putMessageSecretsWithRetry, retryAux, h0, hd, hc]
  · intro h0
    simp [putMessageSecretsWithRetry, retryAux, h0]
  · intro h
    obtain ⟨e0, h0, hm0⟩ := h 0 (by omega)
    obtain ⟨e1, h1, hm1⟩ := h 1 (by omega)
    obtain ⟨e2, h2, hm2⟩ := h 2 (by omega)
    simp [putMessageSecretsWithRetry, retryAux, h0, h1, h2,
      cond e0 hm0, cond e1 hm1, cond e2 hm2]

/-- C3 (witness): the amended theorem applied on sqlite3 with a lock-wait
timeout on every attempt: three attempts, three sleeps, retry-exhausted. -/
theorem C3_retry_envelope_witness :
    putMessageSecretsWithRetry "sqlite3" (fun _ => some "Lock wait timeout exceeded")
      = (some "failed to store message secrets after 3 retry attempts", [100, 200, 300]) :=
  (C3_retry_envelope "sqlite3" (fun _ => some "Lock wait timeout exceeded")).2.2
    (fun i _ => ⟨"Lock wait timeout exceeded", rfl, fun hd => by simp at hd⟩)

/-- C4 (counterexample): PutMessageSecrets with 51 inserts (two chunks of the
50-threshold) where the write of chunk index 1 fails: the call errors, but
the database afterwards contains the 50 rows of chunk 0 — it was NOT left as
it was before the call, refuting the claim that a failure in chunk n rolls
back chunks 1 through n for all three chunked families. -/
theorem C4_counterexample :
    putMessageSecretsChunked (fun i => i == 1) (List.range 51) []
      = (List.range 50, some 1)
    ∧ (List.range 50 : List Nat) ≠ [] := by
  constructor
  · decide
  · decide

/-- C4 (amended): every chunked family splits its input into consecutive
chunks of at most its threshold whose concatenation in order is the input;
PutAppStateMutationMACs (400) and PutAllContactNames (300) run all chunks in
one transaction, so any chunk failure leaves the database at its pre-call
contents; PutMessageSecrets (50) commits each chunk in its own transaction,
so a failure at chunk index i leaves exactly the chunks before i committed
(and a fully successful call appends all inserts). -/
theorem C4_chunking_and_rollback :
    (∀ (n : Nat) (l : List Nat), 1 ≤ n →
        (chunksOf n l).flatten = l ∧ ∀ c ∈ chunksOf n l, c.length ≤ n)
    ∧ (∀ (fail : Nat → Bool) (mutations db : List Nat),
        (putAppStateMutationMACsBig fail mutations db).2 = true →
        (putAppStateMutationMACsBig fail mutations db).1 = db)
    ∧ (∀ (fail : Nat → Bool) (contacts db : List Nat),
        (putAllContactNamesBig fail contacts db).2 = true →
        (putAllContactNamesBig fail contacts db).1 = db)
    ∧ (∀ (fail : Nat → Bool) (inserts db : List Nat) (i : Nat),
        (putMessageSecretsChunked fail inserts db).2 = some i →
        (putMessageSecretsChunked fail inserts db).1
          = db ++ ((chunksOf 50 inserts).take i).flatten)
    ∧ (∀ (fail : Nat → Bool) (inserts db : List Nat),
        (putMessageSecretsChunked fail inserts db).2 = none →
        (putMessageSecretsChunked fail inserts db).1 = db ++ inserts) := by
  refine ⟨?_, ?_, ?_, ?_, ?_⟩
  · intro n l hn
    exact ⟨chunksOf_join n hn l, fun c hc => chunksOf_length_le n l c hc⟩
  · intro fail mutations db h
    unfold putAppStateMutationMACsBig at h ⊢
    cases hr : runChunksOneTx fail 0 (chunksOf 400 mutations) db with
    | none => simp [hr]
    | some out => rw [hr] at h; simp at h
  · intro fail contacts db h
    unfold putAllContactNamesBig at h ⊢
    cases hr : runChunksOneTx fail 0 (chunksOf 300 contacts) db with
    | none => simp [hr]
    | some out => rw [hr] at h; simp at h
  · intro fail inserts db i h
    have := runChunksPerTx_fail fail (chunksOf 50 inserts) 0 db i h
    simpa [putMessageSecretsChunked] using this.2
  · intro fail inserts db h
    have := runChunksPerTx_none fail (chunksOf 50 inserts) 0 db h
    rw [putMessageSecretsChunked] at h ⊢
    rw [this, chunksOf_join 50 (by omega) inserts]

/-- C4 (witness): the amended theorem applied to the 51-insert run whose
chunk 1 fails: the database ends as the 50 rows of the chunks before index 1. -/
theorem C4_chunking_and_rollback_witness :
    (putMessageSecretsChunked (fun i => i == 1) (List.range 51) ([] : List Nat)).2 = some 1
    ∧ (putMessageSecretsChunked (fun i => i == 1) (List.range 51) ([] : List Nat)).1
      = [] ++ ((chunksOf 50 (List.range 51)).take 1).flatten :=
  ⟨by decide,
    C4_chunking_and_rollback.2.2.2.1 (fun i => i == 1) (List.range 51) [] 1 (by decide)⟩

/-- C5: IsTrustedIdentity returns true with no error when no identity row
exists; with a stored 32-byte identity it returns the byte-exact equality of
the stored key and the supplied key; a stored blob of any other length is the
InvalidLength error; and PutIdentity followed by IsTrustedIdentity yields the
byte-wise comparison of the two keys. -/
theorem C5_is_trusted_identity (table : String → Option Blob) (address : String)
    (key k2 blob : Blob) :
    (table address = none → isTrustedIdentity table address key = .ok true)
    ∧ (table address = some blob → blob.length = 32 →
        isTrustedIdentity table address key = .ok (blob == key))
    ∧ (table address = some blob → blob.length ≠ 32 →
        isTrustedIdentity table address key = .error .invalidLength)
    ∧ (key.length = 32 →
        isTrustedIdentity (putIdentity table address key) address k2
          = .ok (key == k2)) := by
  refine ⟨?_, ?_, ?_, ?_⟩
  · intro h
    simp [isTrustedIdentity, h]
  · intro h hl
    simp [isTrustedIdentity, h, hl]
  · intro h hl
    simp [isTrustedIdentity, h, hl]
  · intro hk
    simp [isTrustedIdentity, putIdentity, hk]

/-- C5 (witness): the put-then-check conjunct at a concrete 32-byte key
compared with itself. -/
theorem C5_is_trusted_identity_witness :
    (List.replicate 32 7).length = 32
    ∧ isTrustedIdentity (putIdentity (fun _ => none) "peer" (List.replicate 32 7))
        "peer" (List.replicate 32 7)
      = .ok (List.replicate 32 7 == List.replicate 32 7) :=
  ⟨by decide,
    (C5_is_trusted_identity (fun _ => none) "peer" (List.replicate 32 7)
      (List.replicate 32 7) []).2.2.2 (by decide)⟩

/-- C6 (code evaluation at the failing input): DeleteIdentity feeds the raw
address to the LIKE-based deleteAllIdentitiesQuery, so calling it with the
address "123:%" removes the row of the DIFFERENT peer "123:456", which the
exact-match semantics the spec prescribes (deleteIdentityExact, the unused
source constant deleteIdentityQuery) would have kept. -/
theorem C6_delete_identity_like_bug :
    (deleteIdentity (fun p => if p = "123:456" then some (List.replicate 32 1) else none)
        "123:%" "123:456" = none)
    ∧ ("123:456" : String) ≠ "123:%"
    ∧ (deleteIdentityExact
        (fun p => if p = "123:456" then some (List.replicate 32 1) else none)
        "123:%" "123:456" = some (List.replicate 32 1))
    ∧ (deleteAllIdentities
        (fun p => if p = "123:456" then some (List.replicate 32 1) else none)
        "123" "123:456" = none) := by
  refine ⟨by decide, by decide, by decide, by decide⟩

/-- C7 (counterexample): for the dialect tag "sqlite" — one of the three
recognized tags the claim names — dialectQuery returns the template
UNCHANGED: the positional markers are not rewritten to question marks,
because the source compares against the tag "sqlite3". -/
theorem C7_counterexample :
    dialectQuery "sqlite" getIdentityQuery = getIdentityQuery
    ∧ dialectQuery "sqlite" getIdentityQuery
      ≠ "SELECT identity FROM whatsmeow_identity_keys WHERE our_jid=? AND their_id=?" := by
  constructor
  · decide
  · decide

/-- C7 (amended): the tags the marker rewrite recognizes are "mysql" and
"sqlite3" (not "sqlite"); for them each positional marker of the canonical
templates becomes a question mark preserving order, and every other tag —
including "sqlite" — gets the template back unchanged. -/
theorem C7_dialect_query (d : String) (q : String) :
    (d ≠ "mysql" → d ≠ "sqlite3" → dialectQuery d q = q)
    ∧ dialectQuery "sqlite3" getIdentityQuery
      = "SELECT identity FROM whatsmeow_identity_keys WHERE our_jid=? AND their_id=?"
    ∧ dialectQuery "mysql" getIdentityQuery
      = "SELECT identity FROM whatsmeow_identity_keys WHERE our_jid=? AND their_id=?"
    ∧ dialectQuery "sqlite3" deleteAllIdentitiesQuery
      = "DELETE FROM whatsmeow_identity_keys WHERE our_jid=? AND their_id LIKE ?"
    ∧ dialectQuery "sqlite3" getSessionQuery
      = "SELECT session FROM whatsmeow_sessions WHERE our_jid=? AND their_id=?" := by
  refine ⟨?_, by decide, by decide, by decide, by decide⟩
  intro h1 h2
  simp [dialectQuery, h1, h2]

/-- C7 (witness): the unknown-tag conjunct applied at the tag "sqlite" and
the canonical identity-lookup template. -/
theorem C7_dialect_query_witness :
    ("sqlite" : String) ≠ "mysql"
    ∧ ("sqlite" : String) ≠ "sqlite3"
    ∧ dialectQuery "sqlite" getIdentityQuery = getIdentityQuery :=
  ⟨by decide, by decide,
    (C7_dialect_query "sqlite" getIdentityQuery).1 (by decide) (by decide)⟩

/-- C8: GenOnePreKey allocates max(key_id)+1 (an empty table counting as max
0), inserts the fresh key with uploaded = true, and consecutive calls return
strictly increasing ids; on a fresh account three calls return 1, 2, 3 and
UploadedPreKeyCount then returns 3. -/
theorem C8_gen_one_pre_key (rows : List PreKeyRow) :
    (genOnePreKey rows).1 = maxKeyId rows + 1
    ∧ (genOnePreKey rows).2 = rows ++ [⟨maxKeyId rows + 1, true⟩]
    ∧ (genOnePreKey (genOnePreKey rows).2).1 > (genOnePreKey rows).1
    ∧ (genOnePreKey []).1 = 1
    ∧ (genOnePreKey (genOnePreKey []).2).1 = 2
    ∧ (genOnePreKey (genOnePreKey (genOnePreKey []).2).2).1 = 3
    ∧ uploadedPreKeyCount (genOnePreKey (genOnePreKey (genOnePreKey []).2).2).2 = 3 := by
  refine ⟨rfl, rfl, ?_, by decide, by decide, by decide, by decide⟩
  show getNextPreKeyID (genOnePreKeyIns rows (getNextPreKeyID rows) true)
      > getNextPreKeyID rows
  simp only [getNextPreKeyID, genOnePreKeyIns, maxKeyId_append]
  omega

/-- C9: each chat-settings setter overwrites only its own column, keeping the
other two columns of an existing row; a first insert fills the absent columns
with the schema defaults 0 / false / false; and rows of other chats are
untouched. -/
theorem C9_chat_settings (table : String → Option ChatSettingsRow) (chat x : String)
    (old : ChatSettingsRow) (v : Int) (b : Bool) :
    (table chat = some old →
      putMutedUntil table chat v chat = some ⟨v, old.pinned, old.archived⟩
      ∧ putPinned table chat b chat = some ⟨old.mutedUntil, b, old.archived⟩
      ∧ putArchived table chat b chat = some ⟨old.mutedUntil, old.pinned, b⟩)
    ∧ (table chat = none →
      putMutedUntil table chat v chat = some ⟨v, false, false⟩
      ∧ putPinned table chat b chat = some ⟨0, b, false⟩
      ∧ putArchived table chat b chat = some ⟨0, false, b⟩)
    ∧ (x ≠ chat →
      putMutedUntil table chat v x = table x
      ∧ putPinned table chat b x = table x
      ∧ putArchived table chat b x = table x) := by
  refine ⟨?_, ?_, ?_⟩
  · intro h
    cases old
    exact ⟨by simp [putMutedUntil, h], by simp [putPinned, h], by simp [putArchived, h]⟩
  · intro h
    exact ⟨by simp [putMutedUntil, h, chatSettingsDefaults],
      by simp [putPinned, h, chatSettingsDefaults],
      by simp [putArchived, h, chatSettingsDefaults]⟩
  · intro hx
    exact ⟨by simp [putMutedUntil, hx], by simp [putPinned, hx], by simp [putArchived, hx]⟩

/-- C9 (witness): the existing-row conjunct on a concrete row (5, pinned,
not archived): setting muted_until to 99 keeps the pinned and archived
columns. -/
theorem C9_chat_settings_witness :
    ((fun (_ : String) => some (⟨5, true, false⟩ : ChatSettingsRow)) "chat"
        = some (⟨5, true, false⟩ : ChatSettingsRow))
    ∧ (putMutedUntil (fun _ => some ⟨5, true, false⟩) "chat" 99 "chat"
        = some ⟨99, true, false⟩
      ∧ putPinned (fun _ => some ⟨5, true, false⟩) "chat" false "chat"
        = some ⟨5, false, false⟩
      ∧ putArchived (fun _ => some ⟨5, true, false⟩) "chat" false "chat"
        = some ⟨5, true, false⟩) :=
  ⟨rfl,
    (C9_chat_settings (fun _ => some ⟨5, true, false⟩) "chat" "other"
      ⟨5, true, false⟩ 99 false).1 rfl⟩

/-- C10: GetAppStateVersion on a name with no stored row returns version 0,
the all-zero 128-byte hash, and no error. -/
theorem C10_get_app_state_version (table : String → Option AppStateVersionRow)
    (name : String) (h : table name = none) :
    getAppStateVersion table name = .ok (0, List.replicate 128 0) := by
  simp [getAppStateVersion, h]

/-- C10 (witness): the theorem applied to the empty table at the name
"critical_block". -/
theorem C10_get_app_state_version_witness :
    ((fun (_ : String) => (none : Option AppStateVersionRow)) "critical_block" = none)
    ∧ getAppStateVersion (fun _ => none) "critical_block"
      = .ok (0, List.replicate 128 0) :=
  ⟨rfl, C10_get_app_state_version (fun _ => none) "critical_block" rfl⟩

end Sqlstore
